import Mathlib

/-!
# Verification of the querychat query-mediation bridge

Shallow embedding of `pkg-py/src/querychat/querychat.py` (the query-mediation
bridge between a conversational agent and a tabular data backend), with
theorems settling the specification's claims about it.

Tables are modelled as lists of rows, a row being an association list from
column name to a (stringified) cell value.  The `DataSource` collaborator
(`datasource.py`, referenced by `querychat.py` but external to the file under
study) is modelled abstractly, exactly as `querychat.py` itself uses it
polymorphically: an unfiltered table (`get_data`) and a fallible SQL executor
(`execute_query`), a raised exception being an `Except.error` carrying the
backend's message string.
-/

/-- A row of a result table: column name paired with cell value. -/
abbrev Row := List (String × String)

/-- A result table, as produced by `DataSource.get_data` / `execute_query`. -/
abbrev Table := List Row

/-- The `DataSource` protocol as `querychat.py` consumes it: an unfiltered
table and a fallible SQL executor.  `Except.error msg` models a Python
exception `e` with `str(e) = msg`. -/
structure DataSource where
  get_data : Table
  execute_query : String → Except String Table

/-- The per-session mutable state of `mod_server`: the reactive values
`current_query` (initially `""`) and `current_title` (initially `None`),
together with the conversation transcript to which `append_output` appends
message chunks. -/
structure SessionState where
  current_query : String
  current_title : Option String
  transcript : List String
  deriving DecidableEq

/-- Initial session state: `current_query = ""`, `current_title = None`,
empty transcript (lines 447-448 of querychat.py). -/
def SessionState.initial : SessionState :=
  { current_query := "", current_title := none, transcript := [] }

/-- The f-string `f"\n\x60\x60\x60sql\n{query}\n\x60\x60\x60\n\n"` emitted by both tools
before execution. -/
def sqlBlock (query : String) : String :=
  "\n\x60\x60\x60sql\n" ++ query ++ "\n\x60\x60\x60\n\n"

/-- The f-string `f"> Error: {error_msg}\n\n"` emitted by both tools on
execution failure. -/
def errorNotice (error_msg : String) : String :=
  "> Error: " ++ error_msg ++ "\n\n"

/-- A stand-in for pandas `DataFrame.to_html(index=False, classes=...)`:
an executable rendering that lists exactly the rows it is given.  The
pandas-produced markup is external to the repository; what matters for the
claims is which rows reach the rendering. -/
def to_html (t : Table) : String :=
  "<table>"
    ++ String.join (t.map (fun r =>
        "<tr>" ++ String.join (r.map (fun c => "<td>" ++ c.2 ++ "</td>")) ++ "</tr>"))
    ++ "</table>"

/-- The truncation notice of `df_to_html` (lines 227-229):
`f"\n\n(Showing only the first {maxrows} rows out of {len(ndf)}.)\n"`. -/
def rows_notice (maxrows total : Nat) : String :=
  "\n\n(Showing only the first " ++ toString maxrows ++ " rows out of "
    ++ toString total ++ ".)\n"

/-- `df_to_html(df, maxrows=5)` (lines 199-233): render the first `maxrows`
rows as an HTML table, appending the truncation notice when
`len(df_short) != len(ndf)`. -/
def df_to_html (df : Table) (maxrows : Nat := 5) : String :=
  let df_short := df.take maxrows
  let table_html := to_html df_short
  let notice :=
    if df_short.length ≠ df.length then rows_notice maxrows df.length else ""
  table_html ++ notice

/-- A stand-in for pandas `DataFrame.to_json(orient="records")`: an executable
serialization of the *full* row list as a JSON array of records. -/
def to_json_records (t : Table) : String :=
  "[" ++ String.intercalate ","
      (t.map (fun r =>
        "\x7b" ++ String.intercalate ","
            (r.map (fun c => "\"" ++ c.1 ++ "\":\"" ++ c.2 ++ "\"")) ++ "\x7d"))
    ++ "]"

/-- The reactive calc `filtered_df` (lines 450-455): the unfiltered data when
`current_query.get() == ""`, else `data_source.execute_query(current_query)`,
recomputed at every read. -/
def filtered_df (ds : DataSource) (st : SessionState) : Except String Table :=
  if st.current_query = "" then Except.ok ds.get_data
  else ds.execute_query st.current_query

/-- The `update_dashboard` tool (lines 463-489).  It appends the SQL code
block to the transcript, tries `execute_query`; on failure appends the error
notice and re-raises; on success sets `current_query` and `current_title`.
The Python guards `if query is not None` / `if title is not None` are
identically true here since both parameters are declared `str` and modelled
as strings. -/
def update_dashboard (ds : DataSource) (query title : String) (st : SessionState) :
    SessionState × Except String Unit :=
  let st := { st with transcript := st.transcript ++ [sqlBlock query] }
  match ds.execute_query query with
  | Except.error e =>
      ({ st with transcript := st.transcript ++ [errorNotice e] }, Except.error e)
  | Except.ok _ =>
      ({ st with current_query := query, current_title := some title },
       Except.ok ())

/-- The `query` tool (lines 492-514).  It appends the SQL code block, runs
`execute_query`; on failure appends the error notice and re-raises; on
success appends `df_to_html(result_df, maxrows=5)` and returns the full
result serialized as JSON records. -/
def query (ds : DataSource) (q : String) (st : SessionState) :
    SessionState × Except String String :=
  let st := { st with transcript := st.transcript ++ [sqlBlock q] }
  match ds.execute_query q with
  | Except.error e =>
      ({ st with transcript := st.transcript ++ [errorNotice e] }, Except.error e)
  | Except.ok result_df =>
      let tbl_html := df_to_html result_df 5
      ({ st with transcript := st.transcript ++ [tbl_html ++ "\n\n"] },
       Except.ok (to_json_records result_df))

/-! ## `init` (lines 236-344): table-name validation and configuration -/

/-- Full-string match of the identifier pattern `[A-Za-z][A-Za-z0-9_]*`:
first character an ASCII letter, every later character an ASCII letter,
digit, or underscore. -/
def validTableName (s : String) : Bool :=
  match s.data with
  | [] => false
  | c :: cs => c.isAlpha && cs.all (fun d => d.isAlpha || d.isDigit || d == '_')

/-- The check `re.match(r"^[a-zA-Z][a-zA-Z0-9_]*$", table_name)` as Python's
`re` evaluates it (line 296): Python's `$` (without `re.MULTILINE`) matches
at the end of the string *or just before a single newline at the end of the
string*, so the pattern also accepts a valid name followed by one trailing
`'\n'`. -/
def re_match_table_name (s : String) : Bool :=
  validTableName s ||
    (s.data.getLast? == some '\n' && validTableName (String.mk s.data.dropLast))

/-- The error classes of §7 that `init` can surface, `ConfigurationError`
being the `ValueError` raised for an invalid table name. -/
inductive InitError where
  | configurationError (msg : String)
  deriving DecidableEq

/-- The `QueryChatConfig` dataclass (lines 27-36), restricted to the fields
the claims observe (the `create_chat_callback` is an opaque factory). -/
structure QueryChatConfig where
  data_source : DataSource
  system_prompt : String
  greeting : Option String

/-- `init` (lines 236-344), with its collaborators passed explicitly:
`mkDataSource` models the branch constructing `SQLAlchemySource` /
`DataFrameSource` (backend access), and `system_prompt_fn` models the
`system_prompt(data_source_obj, data_description=..., extra_instructions=...,
prompt_template=...)` call (schema introspection, also backend access).
Besides the result, the returned Bool records whether the backend was
reached: the validation failure raises before `mkDataSource` is invoked.
`system_prompt_ = system_prompt_override or system_prompt(...)` uses Python
truthiness: a `None` *or empty-string* override falls through to the
generated prompt.  (The `isinstance(system_prompt_override, Path)` branch is
outside the parameter's declared `Optional[str]` type and is not modelled;
`greeting` likewise enters as the already-read string.) -/
def init (mkDataSource : Unit → DataSource) (table_name : String)
    (greeting data_description extra_instructions prompt_template : Option String)
    (system_prompt_override : Option String)
    (system_prompt_fn :
      DataSource → Option String → Option String → Option String → String) :
    Except InitError QueryChatConfig × Bool :=
  if ¬ re_match_table_name table_name then
    (Except.error (InitError.configurationError
      "Table name must begin with a letter and contain only letters, numbers, and underscores"),
     false)
  else
    let data_source_obj := mkDataSource ()
    let system_prompt_ :=
      match system_prompt_override with
      | some s =>
          if s = "" then
            system_prompt_fn data_source_obj data_description extra_instructions
              prompt_template
          else s
      | none =>
          system_prompt_fn data_source_obj data_description extra_instructions
            prompt_template
    (Except.ok
      { data_source := data_source_obj
        system_prompt := system_prompt_
        greeting := greeting },
     true)

/-! ## Startup greeting (lines 543-552) -/

/-- What the `greet_on_startup` reactive effect does at session start. -/
inductive GreetAction where
  | display (s : String)
  | generate
  | noGreeting
  deriving DecidableEq

/-- `greet_on_startup` (lines 543-552): `if querychat_config.greeting:`
(Python truthiness, so a non-None non-empty string) displays the greeting;
`elif querychat_config.greeting is None:` issues an agent call to generate
one; otherwise (a non-None falsy string, i.e. `""`) neither branch runs. -/
def greet_on_startup (greeting : Option String) : GreetAction :=
  match greeting with
  | some s => if s ≠ "" then GreetAction.display s else GreetAction.noGreeting
  | none => GreetAction.generate

/-! ## Bulk export (`QueryChat.to_ibis`) -/

/-- The handle a `QueryChat` keeps on its data source, as `to_ibis` probes
it: present or absent, and when present carrying or lacking a `_table_name`
attribute. -/
structure SourceHandle where
  table_name : Option String
  deriving DecidableEq

/-- The arguments of a `QueryChat` as `to_ibis` reads them: the current SQL
reactive (`""` meaning none active), the current filtered frame, and the
optional data-source handle. -/
structure QueryChatHandle where
  sql : String
  df : Table
  data_source : Option SourceHandle
  deriving DecidableEq

/-- The ibis expression `to_ibis` hands back, by provenance: built from the
active SQL (`conn.sql`), from the backend table name (`conn.table`), or by
materializing the current frame under a fresh name (`conn.create_table`). -/
inductive IbisResult where
  | fromSql (sql : String)
  | fromTable (table_name : String)
  | created (table_name : String) (data : Table)
  deriving DecidableEq

/-- Modelled from the spec: `QueryChat.to_ibis` is absent from the sources
under study (only `tests/test_ibis_integration.py` exercises it).  Per §6,
bulk export re-runs the active SQL through the external layer's native SQL
entry point; if no SQL is active it references the backend table by name; if
the backend lacks a table name it materializes the current result into a
newly named temporary relation (`"querychat_data"`, per the test); and it
fails with `ValueError` when no SQL is active and no usable backend is
available, surfaced synchronously to the caller. -/
def to_ibis (qc : QueryChatHandle) : Except String IbisResult :=
  if qc.sql ≠ "" then Except.ok (IbisResult.fromSql qc.sql)
  else
    match qc.data_source with
    | none =>
        Except.error
          "No SQL query has been generated yet and no data source is available"
    | some ds =>
        match ds.table_name with
        | some tn => Except.ok (IbisResult.fromTable tn)
        | none => Except.ok (IbisResult.created "querychat_data" qc.df)

/-! ## Concrete fixtures for witnesses and counterexamples -/

/-- A backend whose executor succeeds on every query, returning a table
different from its unfiltered data. -/
def dsOk : DataSource :=
  { get_data := [[("a", "1")]]
    execute_query := fun _ => Except.ok [[("b", "2")]] }

/-- A backend whose executor fails on every query with message `"boom"`. -/
def dsFail : DataSource :=
  { get_data := [[("a", "1")]]
    execute_query := fun _ => Except.error "boom" }

/-- A six-row, one-column result table (more rows than the display cap). -/
def table6 : Table :=
  [[("n", "1")], [("n", "2")], [("n", "3")], [("n", "4")], [("n", "5")],
   [("n", "6")]]

/-- A backend whose executor returns `table6` on every query. -/
def ds6 : DataSource :=
  { get_data := table6, execute_query := fun _ => Except.ok table6 }

/-! ## Helper lemmas -/

/-- `df_to_html` in closed form: the HTML part is built from exactly the
first `m` rows, and the truncation notice is present iff the table has more
than `m` rows. -/
theorem df_to_html_eq (df : Table) (m : Nat) :
    df_to_html df m
      = to_html (df.take m)
        ++ if m < df.length then rows_notice m df.length else "" := by
  simp only [df_to_html]
  rcases Nat.lt_or_ge m df.length with h | h
  · rw [if_pos h, if_pos]
    simp only [List.length_take, ne_eq]
    omega
  · rw [if_neg (Nat.not_lt.mpr h), if_neg]
    simp only [List.length_take, ne_eq, not_not]
    omega

/-! ## Claims -/

/-- C1: if `DataSource.execute_query(sql)` raises during `update_dashboard`,
then an error notice containing the original backend error message is
appended to the transcript, the same exception is propagated to the agent
unchanged, and `current_query` and `current_title` retain exactly the values
they had before the call. -/
theorem update_dashboard_failure_frame (ds : DataSource) (sql title : String)
    (st : SessionState) (e : String) (h : ds.execute_query sql = Except.error e) :
    (update_dashboard ds sql title st).1.current_query = st.current_query ∧
    (update_dashboard ds sql title st).1.current_title = st.current_title ∧
    (update_dashboard ds sql title st).2 = Except.error e ∧
    (update_dashboard ds sql title st).1.transcript
      = st.transcript ++ [sqlBlock sql, "> Error: " ++ e ++ "\n\n"] := by
  simp [update_dashboard, h, errorNotice]

/-- Witness for C1 at a concrete failing backend. -/
theorem update_dashboard_failure_frame_witness :
    (update_dashboard dsFail "SELECT 1" "T" SessionState.initial).1.current_query
        = SessionState.initial.current_query ∧
    (update_dashboard dsFail "SELECT 1" "T" SessionState.initial).1.current_title
        = SessionState.initial.current_title ∧
    (update_dashboard dsFail "SELECT 1" "T" SessionState.initial).2
        = Except.error "boom" ∧
    (update_dashboard dsFail "SELECT 1" "T" SessionState.initial).1.transcript
      = SessionState.initial.transcript
          ++ [sqlBlock "SELECT 1", "> Error: " ++ "boom" ++ "\n\n"] :=
  update_dashboard_failure_frame dsFail "SELECT 1" "T" SessionState.initial
    "boom" rfl

/-- C2: when `execute_query(sql)` succeeds inside `update_dashboard`,
`current_query` is set to `sql` and `current_title` to `title`; and the
post-state pair is always either the fully-old pair or the fully-new pair,
never a mix of one old and one new component. -/
theorem update_dashboard_success_atomic (ds : DataSource) (sql title : String)
    (st : SessionState) :
    ((update_dashboard ds sql title st).2 = Except.ok () →
      (update_dashboard ds sql title st).1.current_query = sql ∧
      (update_dashboard ds sql title st).1.current_title = some title) ∧
    (((update_dashboard ds sql title st).1.current_query,
        (update_dashboard ds sql title st).1.current_title)
          = (st.current_query, st.current_title) ∨
      ((update_dashboard ds sql title st).1.current_query,
        (update_dashboard ds sql title st).1.current_title)
          = (sql, some title)) := by
  cases h : ds.execute_query sql <;> simp [update_dashboard, h]

/-- Witness for C2 at a concrete succeeding backend. -/
theorem update_dashboard_success_atomic_witness :
    (update_dashboard dsOk "SELECT 1" "T" SessionState.initial).1.current_query
        = "SELECT 1" ∧
    (update_dashboard dsOk "SELECT 1" "T" SessionState.initial).1.current_title
        = some "T" :=
  (update_dashboard_success_atomic dsOk "SELECT 1" "T" SessionState.initial).1
    rfl

/-- C3 counterexample: committing the *empty* SQL string through a backend
whose executor succeeds on it leaves `current_query = ""`, so the immediate
read returns the unfiltered data, not what `execute_query("")` returns: the
claim's read-your-writes consequence fails at `sql = ""`. -/
theorem filtered_df_empty_commit_cex :
    (update_dashboard dsOk "" "T" SessionState.initial).2 = Except.ok () ∧
    filtered_df dsOk (update_dashboard dsOk "" "T" SessionState.initial).1
      = Except.ok [[("a", "1")]] ∧
    dsOk.execute_query "" = Except.ok [[("b", "2")]] ∧
    ([[("a", "1")]] : Table) ≠ [[("b", "2")]] :=
  ⟨rfl, rfl, rfl, by decide⟩

/-- C3 (amended): `filtered_df` returns `get_data` when `current_query` is
empty and otherwise re-executes `current_query` on every read; and a
successful commit of a *non-empty* `sql` followed immediately by a read
returns exactly what `execute_query(sql)` returns at that instant. -/
theorem filtered_df_reads (ds : DataSource) (st : SessionState)
    (sql title : String) (hne : sql ≠ "") :
    (st.current_query = "" → filtered_df ds st = Except.ok ds.get_data) ∧
    (st.current_query ≠ "" →
      filtered_df ds st = ds.execute_query st.current_query) ∧
    ((update_dashboard ds sql title st).2 = Except.ok () →
      filtered_df ds (update_dashboard ds sql title st).1
        = ds.execute_query sql) := by
  refine ⟨fun h => by simp [filtered_df, h], fun h => by simp [filtered_df, h],
    fun hok => ?_⟩
  cases h : ds.execute_query sql with
  | error e => simp [update_dashboard, h] at hok
  | ok t => simp [update_dashboard, h, filtered_df, hne]

/-- Witness for C3 at a concrete backend, unset state, non-empty SQL. -/
theorem filtered_df_reads_witness :
    (filtered_df dsOk SessionState.initial = Except.ok dsOk.get_data) ∧
    (filtered_df dsOk
        (update_dashboard dsOk "SELECT 1" "T" SessionState.initial).1
      = dsOk.execute_query "SELECT 1") :=
  ⟨(filtered_df_reads dsOk SessionState.initial "SELECT 1" "T"
      (by decide)).1 rfl,
   (filtered_df_reads dsOk SessionState.initial "SELECT 1" "T"
      (by decide)).2.2 rfl⟩

/-- C5: the `query` (preview) tool leaves `current_query` and
`current_title` unchanged, whether `execute_query` succeeds or raises. -/
theorem query_frame (ds : DataSource) (q : String) (st : SessionState) :
    (query ds q st).1.current_query = st.current_query ∧
    (query ds q st).1.current_title = st.current_title := by
  cases h : ds.execute_query q <;> simp [query, h]

/-- C7: both tools append the SQL code block to the transcript immediately
after the prior transcript contents, in every outcome — so it is present
even on calls whose execution subsequently fails. -/
theorem sql_block_always_logged (ds : DataSource) (sql title q : String)
    (st : SessionState) :
    (∃ rest, (update_dashboard ds sql title st).1.transcript
        = st.transcript ++ sqlBlock sql :: rest) ∧
    (∃ rest, (query ds q st).1.transcript
        = st.transcript ++ sqlBlock q :: rest) := by
  constructor
  · cases h : ds.execute_query sql with
    | error e => exact ⟨[errorNotice e], by simp [update_dashboard, h]⟩
    | ok t => exact ⟨[], by simp [update_dashboard, h]⟩
  · cases h : ds.execute_query q with
    | error e => exact ⟨[errorNotice e], by simp [query, h]⟩
    | ok t => exact ⟨[df_to_html t 5 ++ "\n\n"], by simp [query, h]⟩

/-- C4: the table name `"abc\n"` does not match the full-string identifier
pattern `[A-Za-z][A-Za-z0-9_]*`, yet Python's `re.match` check (whose `$`
also matches just before one trailing newline) accepts it, so `init`
proceeds to backend construction instead of failing — contradicting the
code's own comment and error text ("contain only letters, numbers, and
underscores"). -/
theorem init_trailing_newline_bug :
    validTableName "abc\n" = false ∧
    re_match_table_name "abc\n" = true ∧
    (init (fun _ => dsOk) "abc\n" none none none none none
        (fun _ _ _ _ => "P")).2 = true ∧
    (init (fun _ => dsOk) "abc\n" none none none none none
        (fun _ _ _ _ => "P")).1
      = Except.ok
          { data_source := dsOk, system_prompt := "P", greeting := none } :=
  ⟨rfl, rfl, rfl, rfl⟩

/-- C4 (valid direction): every table name matching the full-string pattern
passes validation and configuration proceeds; every name the Python check
rejects fails with `ConfigurationError` with the backend never accessed. -/
theorem init_table_name_validation (mk : Unit → DataSource) (tn : String)
    (g dd ei pt ov : Option String)
    (fn : DataSource → Option String → Option String → Option String → String)
    (hvalid : validTableName tn = true) :
    ((init mk tn g dd ei pt ov fn).1.isOk ∧ (init mk tn g dd ei pt ov fn).2) ∧
    (∀ tn', re_match_table_name tn' = false →
      (init mk tn' g dd ei pt ov fn).1
          = Except.error (InitError.configurationError
              "Table name must begin with a letter and contain only letters, numbers, and underscores") ∧
        (init mk tn' g dd ei pt ov fn).2 = false) := by
  constructor
  · have h : re_match_table_name tn = true := by
      simp [re_match_table_name, hvalid]
    cases hov : ov <;> simp [init, h, hov, Except.isOk, Except.toBool]
  · intro tn' h
    simp [init, h]

/-- Witness for the C4 theorem at a valid and an invalid concrete name. -/
theorem init_table_name_validation_witness :
    ((init (fun _ => dsOk) "tbl" none none none none none
        (fun _ _ _ _ => "P")).1.isOk ∧
      (init (fun _ => dsOk) "tbl" none none none none none
        (fun _ _ _ _ => "P")).2) ∧
    (init (fun _ => dsOk) "3bad" none none none none none
        (fun _ _ _ _ => "P")).1
      = Except.error (InitError.configurationError
          "Table name must begin with a letter and contain only letters, numbers, and underscores") ∧
    (init (fun _ => dsOk) "3bad" none none none none none
        (fun _ _ _ _ => "P")).2 = false :=
  ⟨(init_table_name_validation (fun _ => dsOk) "tbl" none none none none none
      (fun _ _ _ _ => "P") rfl).1,
   (init_table_name_validation (fun _ => dsOk) "tbl" none none none none none
      (fun _ _ _ _ => "P") rfl).2 "3bad" rfl⟩

/-- C6: on a successful preview, the transcript gains the SQL block and the
rendering of the result, where the rendering is built from exactly the first
5 rows and carries the trailing `(Showing only the first 5 rows out of M.)`
notice iff the result has more than 5 rows; the tool's return value is the
full untruncated result serialized as a JSON array of records. -/
theorem query_preview_render (ds : DataSource) (q : String) (st : SessionState)
    (result_df : Table) (h : ds.execute_query q = Except.ok result_df) :
    (query ds q st).2 = Except.ok (to_json_records result_df) ∧
    (query ds q st).1.transcript
      = st.transcript ++ [sqlBlock q, df_to_html result_df 5 ++ "\n\n"] ∧
    df_to_html result_df 5
      = to_html (result_df.take 5)
        ++ if 5 < result_df.length then rows_notice 5 result_df.length
           else "" := by
  refine ⟨by simp [query, h], by simp [query, h], df_to_html_eq result_df 5⟩

/-- Witness for C6 at a six-row result (truncated rendering, full return). -/
theorem query_preview_render_witness :
    (query ds6 "SELECT 1" SessionState.initial).2
        = Except.ok (to_json_records table6) ∧
    (query ds6 "SELECT 1" SessionState.initial).1.transcript
      = SessionState.initial.transcript
          ++ [sqlBlock "SELECT 1", df_to_html table6 5 ++ "\n\n"] ∧
    df_to_html table6 5
      = to_html (table6.take 5)
        ++ if 5 < table6.length then rows_notice 5 table6.length else "" :=
  query_preview_render ds6 "SELECT 1" SessionState.initial table6 rfl

/-- C8: requesting the bulk export when no SQL query is active and no data
source is available fails with the `ValueError`, returned synchronously. -/
theorem to_ibis_no_query_no_source (qc : QueryChatHandle)
    (hsql : qc.sql = "") (hds : qc.data_source = none) :
    to_ibis qc
      = Except.error
          "No SQL query has been generated yet and no data source is available" := by
  simp [to_ibis, hsql, hds]

/-- Witness for C8 at a concrete handle with no SQL and no source. -/
theorem to_ibis_no_query_no_source_witness :
    to_ibis { sql := "", df := [], data_source := none }
      = Except.error
          "No SQL query has been generated yet and no data source is available" :=
  to_ibis_no_query_no_source { sql := "", df := [], data_source := none }
    rfl rfl

/-- C9 counterexample: supplying the empty string as
`system_prompt_override` does not make `system_prompt` equal the override —
Python's `system_prompt_override or system_prompt(...)` treats the falsy
`""` as absent and uses the generated prompt instead. -/
theorem init_empty_override_cex :
    (init (fun _ => dsOk) "tbl" none none none none (some "")
        (fun _ _ _ _ => "GENERATED")).1
      = Except.ok
          { data_source := dsOk, system_prompt := "GENERATED",
            greeting := none } ∧
    "GENERATED" ≠ "" :=
  ⟨rfl, by decide⟩

/-- C9 (amended): whenever a *non-empty* `system_prompt_override` is
supplied, the resulting configuration's `system_prompt` equals the override,
so `data_description`, `extra_instructions` and `prompt_template` (and the
whole prompt generator) have no effect on it. -/
theorem init_override_nonempty (mk : Unit → DataSource) (tn : String)
    (g dd ei pt : Option String) (s : String)
    (fn : DataSource → Option String → Option String → Option String → String)
    (cfg : QueryChatConfig) (hs : s ≠ "")
    (h : (init mk tn g dd ei pt (some s) fn).1 = Except.ok cfg) :
    cfg.system_prompt = s := by
  by_cases hv : re_match_table_name tn
  · simp [init, hv, hs] at h
    rw [← h]
  · simp [init, hv] at h

/-- Witness for C9 at a concrete non-empty override. -/
theorem init_override_nonempty_witness :
    ({ data_source := dsOk, system_prompt := "OVR", greeting := none }
        : QueryChatConfig).system_prompt = "OVR" :=
  init_override_nonempty (fun _ => dsOk) "tbl" none none none none "OVR"
    (fun _ _ _ _ => "GEN")
    { data_source := dsOk, system_prompt := "OVR", greeting := none }
    (by decide) rfl

/-- C10: when the greeting supplied at configuration time is the non-None
empty string, neither branch of `greet_on_startup` runs — the greeting is
not displayed and no agent call is issued to generate one. -/
theorem greet_empty_string_silent (mk : Unit → DataSource) (tn : String)
    (dd ei pt ov : Option String)
    (fn : DataSource → Option String → Option String → Option String → String)
    (cfg : QueryChatConfig)
    (h : (init mk tn (some "") dd ei pt ov fn).1 = Except.ok cfg) :
    greet_on_startup cfg.greeting = GreetAction.noGreeting := by
  by_cases hv : re_match_table_name tn
  · have hg : cfg.greeting = some "" := by
      cases hov : ov <;> simp [init, hv, hov] at h <;> rw [← h]
    simp [greet_on_startup, hg]
  · simp [init, hv] at h

/-- Witness for C10 at a concrete configuration with the empty greeting. -/
theorem greet_empty_string_silent_witness :
    greet_on_startup
        ({ data_source := dsOk, system_prompt := "P", greeting := some "" }
          : QueryChatConfig).greeting
      = GreetAction.noGreeting :=
  greet_empty_string_silent (fun _ => dsOk) "tbl" none none none none
    (fun _ _ _ _ => "P")
    { data_source := dsOk, system_prompt := "P", greeting := some "" } rfl
